import Mathlib

/-!
Verification of the Ready-art-work repository: a shallow embedding, in Lean,
of the pipeline in `app.py`, `app_complete.py` and `rate_site_terminal.py`,
together with theorems settling the frozen claims about it.

Conventions of the embedding:
  * Pure Python string manipulation is translated directly to Lean string or
    character-list functions.  Python's `\w`, `\s` and `[A-Z]` character
    classes are modelled over ASCII (`Char.isAlphanum`, `Char.isWhitespace`,
    `Char.isAlpha`); the repository only ever feeds them scraped web text.
  * Interactions with the Selenium driver and with the external web page are
    modelled by oracle values supplied as function arguments or as fields of
    an environment structure: each field records the outcome (return value or
    raised exception) of one external call, in program order.
  * A Python exception is modelled as `Except String` with the message as the
    payload; a `try/except` block is an explicit `match` on such a value.
  * A Python `dict` with string keys is an association list whose update
    keeps the position of an existing key, as CPython's insertion-ordered
    `dict` does.
-/

/-- A Result Record: the insertion-ordered field-name/value mapping produced
per analyzed URL (`Dict[str, str]` in the source). -/
abbrev Record := List (String × String)

/-!
Character-list implementations of the Python string primitives the source
uses (`startswith`, `strip`, `replace`, slicing).  Lean's own `String.trim`,
`String.startsWith` and `String.replace` are implemented over byte positions
and do not reduce inside the kernel, so the embedding uses these equivalents,
which do; each is the direct Python semantics over the string's characters.
-/

/-- `s.startswith(pre)`. -/
def pyStartsWith (s pre : String) : Bool :=
  pre.data.isPrefixOf s.data

/-- `s.strip()`: drop leading and trailing whitespace. -/
def pyStrip (s : String) : String :=
  String.mk (((s.data.dropWhile Char.isWhitespace).reverse.dropWhile Char.isWhitespace).reverse)

/-- `s[:n]`: the first `n` characters. -/
def pyTake (s : String) (n : Nat) : String :=
  String.mk (s.data.take n)

/-- One fuel-indexed pass of `str.replace` over the characters: at each
position, a (non-empty) occurrence of `pat` is replaced by `repl` and skipped,
otherwise one character is kept.  The fuel bounds the number of iterations;
each iteration consumes at least one character, so fuel equal to the length
of the scanned list makes this exactly Python's left-to-right, non-overlapping
`replace`. -/
def replaceGo (pat repl : List Char) : Nat → List Char → List Char
  | _, [] => []
  | 0, cs => cs
  | fuel + 1, c :: rest =>
    if pat ≠ [] && pat.isPrefixOf (c :: rest) then
      repl ++ replaceGo pat repl fuel ((c :: rest).drop pat.length)
    else
      c :: replaceGo pat repl fuel rest

/-- `s.replace(pat, repl)` for a non-empty `pat`. -/
def pyReplace (s pat repl : String) : String :=
  String.mk (replaceGo pat.data repl.data s.data.length s.data)

/-- The constant `RATEMYSITE_URL` shared by all three source files. -/
def RATEMYSITE_URL : String := "https://www.ratemysite.xyz/"

/-- One server-sent event of the streaming protocol, by kind and payload.
`result` carries the parsed record on the success branch and `none` on the
failure branch (whose JSON payload is an error string instead of data).
The `init` event of `app_complete.py` additionally carries its table-row
labels; that presentation payload is not modelled. -/
inductive Event where
  | init (total : Nat)
  | start_url (index : Nat) (url : String)
  | progress (index : Nat) (phase : String) (p : Nat) (ofSteps : Nat)
  | debug (index : Nat) (message : String)
  | result (index : Nat) (url : String) (data : Option Record)
  | done (ok : Bool)
  deriving DecidableEq

def Event.isInit : Event → Bool
  | .init _ => true
  | _ => false

def Event.isDone : Event → Bool
  | .done _ => true
  | _ => false

def Event.isResult : Event → Bool
  | .result _ _ _ => true
  | _ => false

/-- URL normalization performed on each entry of the batch by
`stream_analysis` in both `app.py` (line 493) and `app_complete.py`
(line 277): `raw if raw.startswith(("http://", "https://")) else "https://" + raw`. -/
def normalize_url (raw : String) : String :=
  if pyStartsWith raw "http://" || pyStartsWith raw "https://" then raw
  else "https://" ++ raw

/-- Outcome of one `driver.find_element(By.XPATH, xp)` call followed by the
`is_displayed()` probe: an element (with its visibility), or one of the two
structural exceptions that `_find_first` catches. -/
inductive FindOutcome where
  | found (el : Nat) (displayed : Bool)
  | noSuchElement
  | staleElement
  deriving DecidableEq

/-- The element an outcome contributes: `some el` exactly when the selector
yielded a visible element. -/
def visibleOf : FindOutcome → Option Nat
  | .found el true => some el
  | _ => none

/-- `_find_first` (`app.py` lines 41-49, `rate_site_terminal.py` lines 42-52):
walk the ordered selector list, return the first present-and-visible element,
treat `NoSuchElementException` and `StaleElementReferenceException` as
"try the next selector", return `None` when the list is exhausted. -/
def find_first (driver : String → FindOutcome) : List String → Option Nat
  | [] => none
  | xp :: rest =>
    match driver xp with
    | .found el displayed => if displayed then some el else find_first driver rest
    | .noSuchElement => find_first driver rest
    | .staleElement => find_first driver rest

/-- One step of the Render Waiter, as a trace item: the bounded wait for the
marker element, one bounded poll for body-text growth, or a fixed sleep. -/
inductive WaitStep where
  | markerWait (timeoutS : Nat) (found : Bool)
  | growthPoll (timeoutS : Nat) (minGrowth : Nat) (grew : Bool)
  | fixedSleep (seconds : Nat)
  deriving DecidableEq

def WaitStep.isGrowthPoll : WaitStep → Bool
  | .growthPoll _ _ _ => true
  | _ => false

namespace Terminal

/-- `_wait_for_content_growth` (`rate_site_terminal.py` lines 132-144): one
poll for body-text growth past `min_growth`, bounded by the shared
`WebDriverWait` timeout; a `TimeoutException` is swallowed (`pass`), so the
call returns either way (`grew` records whether the growth was observed). -/
def wait_for_content_growth (timeoutS minGrowth : Nat) (grew : Bool) : List WaitStep :=
  [WaitStep.growthPoll timeoutS minGrowth grew]

/-- The render-wait section of `run` (`rate_site_terminal.py` lines 201-211):
strategy A waits for a result-like marker node within the timeout; on
`TimeoutException` strategy B polls for body-text growth (`min_growth=120`)
bounded by the same `wait` object; both failing, control falls through. -/
def render_wait (timeoutS : Nat) (markerFound : Bool) (grew : Bool) : List WaitStep :=
  if markerFound then [WaitStep.markerWait timeoutS true]
  else WaitStep.markerWait timeoutS false :: wait_for_content_growth timeoutS 120 grew

/-- Exit behaviour of the command-line entry point. -/
inductive CliAction where
  | reject (exitCode : Nat)
  | runWith (url : String)
  deriving DecidableEq

/-- The `__main__` block of `rate_site_terminal.py` (lines 250-256): the
argument is stripped; a target that does not start with `http://` or
`https://` is rejected with `sys.exit(1)` (after printing a message), and
only an already-schemed target is passed, unchanged, to `run`. -/
def cli_main (url_arg : String) : CliAction :=
  let target := pyStrip url_arg
  if pyStartsWith target "http://" || pyStartsWith target "https://" then
    CliAction.runWith target
  else
    CliAction.reject 1

end Terminal

namespace App

/-- Collapse every maximal run of spaces to one space; together with the
whitespace-to-space map below this models `re.sub(r'\s+', ' ', ...)`. -/
def squeezeSpaces : List Char → List Char
  | [] => []
  | [c] => [c]
  | a :: b :: rest =>
    if a == ' ' && b == ' ' then squeezeSpaces (b :: rest)
    else a :: squeezeSpaces (b :: rest)

/-- A character kept by `_clean_text`'s second substitution, i.e. one matching
the class `[\w\s.,;:()!?\-'"/&]` (`Char.ofNat 39` is the apostrophe and
`Char.ofNat 34` the double quote). -/
def allowedChar (c : Char) : Bool :=
  c.isAlphanum || c == '_' || c.isWhitespace ||
    ['.', ',', ';', ':', '(', ')', '!', '?', '-', '/', '&'].contains c ||
    c == Char.ofNat 39 || c == Char.ofNat 34

/-- `_clean_text` (`app.py` lines 232-240): empty or placeholder text maps to
`"-"`; otherwise strip, collapse internal whitespace runs to single spaces,
drop characters outside the allowed class, and strip again. -/
def clean_text (text : String) : String :=
  if text == "" || text == "-" then "-"
  else
    let collapsed :=
      String.mk (squeezeSpaces ((pyStrip text).data.map fun c =>
        if c.isWhitespace then ' ' else c))
    pyStrip (String.mk (collapsed.data.filter allowedChar))

/-- The check `re.match(r'^\d+\.?\d*$', score_text)` (`app.py` line 276):
one or more digits, an optional dot, more digits, to the end of the string
(`$` also matches just before one final newline). -/
def isScoreText (s : String) : Bool :=
  let cs := s.data
  let d1 := cs.takeWhile Char.isDigit
  if d1.isEmpty then false
  else
    match cs.drop d1.length with
    | [] => true
    | ['\n'] => true
    | '.' :: r2 =>
      let d2 := r2.takeWhile Char.isDigit
      r2.drop d2.length == [] || r2.drop d2.length == ['\n']
    | _ => false

/-- The company name derived from the URL (`app.py` line 246):
`url.replace("https://", "").replace("http://", "").replace("www.", "").split("/")[0]`. -/
def company_of_url (url : String) : String :=
  let stripped := pyReplace (pyReplace (pyReplace url "https://" "") "http://" "") "www." ""
  String.mk (stripped.data.takeWhile fun c => c != '/')

/-- The fixed key set of a Result Record of `_parse_ratemysite_html`. -/
def fixedKeys : List String :=
  ["Company", "URL", "Overall Score", "Description of Website",
   "Consumer Score", "Consumer Score Description",
   "Developer Score", "Developer Score Description",
   "Investor Score", "Investor Score Description",
   "Clarity Score", "Clarity Score Description",
   "Visual Design Score", "Visual Design Score Description",
   "UX Score", "UX Score Description",
   "Trust Score", "Trust Score Description",
   "Value Prop Score", "Value Prop Score Description"]

/-- The dict literal that opens `_parse_ratemysite_html` (`app.py` lines
248-269): every fixed key present, placeholder values everywhere except
`Company` and `URL`. -/
def baseRecord (company url : String) : Record :=
  [("Company", company), ("URL", url),
   ("Overall Score", "-"), ("Description of Website", "-"),
   ("Consumer Score", "-"), ("Consumer Score Description", "-"),
   ("Developer Score", "-"), ("Developer Score Description", "-"),
   ("Investor Score", "-"), ("Investor Score Description", "-"),
   ("Clarity Score", "-"), ("Clarity Score Description", "-"),
   ("Visual Design Score", "-"), ("Visual Design Score Description", "-"),
   ("UX Score", "-"), ("UX Score Description", "-"),
   ("Trust Score", "-"), ("Trust Score Description", "-"),
   ("Value Prop Score", "-"), ("Value Prop Score Description", "-")]

/-- Assignment `result[key] = val` on a Python dict whose key already exists:
the entry is updated in place, insertion order unchanged. -/
def setKey : Record → String → String → Record
  | [], _, _ => []
  | (k, v) :: rest, key, val =>
    if k = key then (k, val) :: rest else (k, v) :: setKey rest key val

/-- What BeautifulSoup yields for one audience/technical card `div`: the
`h3` title (absent cards are skipped by the `continue`), the `span.text-2xl`
score text and the `p.text-gray-300` description text. -/
structure Card where
  title : Option String
  score : Option String
  desc : Option String

/-- The soup queries `_parse_ratemysite_html` performs, as data: the
`span.text-5xl` overall-score text, the `p.text-xl.text-white` description
text, and the card lists under the two `h2` sections.  A missing section,
missing grid container or empty card query is an empty list (the loops then
run zero times, exactly as in the source). -/
structure Soup where
  overallScore : Option String
  description : Option String
  audienceCards : List Card
  techCards : List Card

/-- The body of the audience-card loop (`app.py` lines 291-310). -/
def applyAudienceCard (acc : Record) (card : Card) : Record :=
  match card.title with
  | none => acc
  | some title =>
    let score := card.score.getD "-"
    let description :=
      match card.desc with
      | some d => clean_text d
      | none => "-"
    if title = "Consumer" then
      setKey (setKey acc "Consumer Score" score) "Consumer Score Description" description
    else if title = "Developer" then
      setKey (setKey acc "Developer Score" score) "Developer Score Description" description
    else if title = "Investor" then
      setKey (setKey acc "Investor Score" score) "Investor Score Description" description
    else acc

/-- The body of the technical-card loop (`app.py` lines 319-344). -/
def applyTechCard (acc : Record) (card : Card) : Record :=
  match card.title with
  | none => acc
  | some title =>
    let score := card.score.getD "-"
    let description :=
      match card.desc with
      | some d => clean_text d
      | none => "-"
    if title = "Clarity" then
      setKey (setKey acc "Clarity Score" score) "Clarity Score Description" description
    else if title = "Visual Design" then
      setKey (setKey acc "Visual Design Score" score) "Visual Design Score Description" description
    else if title = "UX" then
      setKey (setKey acc "UX Score" score) "UX Score Description" description
    else if title = "Trust" then
      setKey (setKey acc "Trust Score" score) "Trust Score Description" description
    else if title = "Value Proposition" then
      setKey (setKey acc "Value Prop Score" score) "Value Prop Score Description" description
    else acc

/-- `_parse_ratemysite_html` (`app.py` lines 242-349) over the soup queries:
start from the full-key placeholder record, then overwrite the overall score
(when it looks like a number), the description and the per-card fields.  The
enclosing `try/except` only prints on error; the parsing steps modelled here
are total, so the record below is always the returned one. -/
def parse_ratemysite_html (soup : Soup) (url : String) : Record :=
  let company_name := company_of_url url
  let result := baseRecord company_name url
  let result :=
    match soup.overallScore with
    | some s => if isScoreText s then setKey result "Overall Score" s else result
    | none => result
  let result :=
    match soup.description with
    | some d => setKey result "Description of Website" (clean_text d)
    | none => result
  let result := soup.audienceCards.foldl applyAudienceCard result
  soup.techCards.foldl applyTechCard result

/-- The record stored by the failure branch of `stream_analysis` (`app.py`
line 514): `{"Company": "Analysis Failed", "URL": url, "Overall Score": "-"}`. -/
def errorRecord (url : String) : Record :=
  [("Company", "Analysis Failed"), ("URL", url), ("Overall Score", "-")]

end App

namespace AppComplete

/-- Case-insensitive match (`re.I`) of the literal label against a prefix of
the text; `some rest` is the text after the label. -/
def stripPrefixCI : List Char → List Char → Option (List Char)
  | [], text => some text
  | _ :: _, [] => none
  | l :: ls, t :: ts => if l.toLower == t.toLower then stripPrefixCI ls ts else none

/-- The suffixes a greedy `\s*` can leave, longest consumption first (the
order the regex engine tries them in when backtracking). -/
def wsSuffixes (r : List Char) : List (List Char) :=
  ((List.range ((r.takeWhile Char.isWhitespace).length + 1)).reverse).map fun w => r.drop w

/-- The capture-start suffixes that `\s*[:\-]?\s*` can leave after the label,
in the engine's backtracking order: first `\s*` longest-first, then the
optional `[:\-]` present-first, then the second `\s*` longest-first. -/
def sepCandidates (rest0 : List Char) : List (List Char) :=
  (wsSuffixes rest0).flatMap fun r1 =>
    (match r1 with
     | c :: r2 => if c == ':' || c == '-' then wsSuffixes r2 else []
     | [] => []) ++ wsSuffixes r1

/-- Whether the leading whitespace run contains a newline: the `\s*\n` tail
of the first alternative, after its opening `\n`. -/
def nlInWsRun : List Char → Bool
  | [] => false
  | c :: rest => c == '\n' || (c.isWhitespace && nlInWsRun rest)

/-- First end-of-capture alternative, `\n\s*\n`: a newline followed, within
whitespace, by another newline. -/
def endAltA : List Char → Bool
  | '\n' :: rest => nlInWsRun rest
  | _ => false

/-- `:` followed by a whitespace character at the current position. -/
def colonWsHere : List Char → Bool
  | ':' :: s :: _ => s.isWhitespace
  | _ => false

/-- The `[^\n]{0,60}:\s` tail: up to `budget` non-newline characters, then a
colon and a whitespace character. -/
def colonWsAfter : Nat → List Char → Bool
  | _, [] => false
  | 0, cs => colonWsHere cs
  | b + 1, c :: rest => colonWsHere (c :: rest) || (c != '\n' && colonWsAfter b rest)

/-- Second end-of-capture alternative, `\n[A-Z][^\n]{0,60}:\s` (under `re.I`
the class `[A-Z]` also matches lowercase letters). -/
def endAltB : List Char → Bool
  | '\n' :: c :: rest => c.isAlpha && colonWsAfter 60 rest
  | _ => false

/-- The `$` anchor without `re.M`: end of text, or just before one final
newline. -/
def endDollar : List Char → Bool
  | [] => true
  | ['\n'] => true
  | _ => false

/-- The terminator group `(?:\n\s*\n|\n[A-Z][^\n]{0,60}:\s|$)` of
`_grab_block`'s multiline pattern. -/
def endAlt (cs : List Char) : Bool :=
  endAltA cs || endAltB cs || endDollar cs

/-- Extend the lazy capture `(.+?)` (with `re.S`, so over any characters) one
character at a time until the terminator group matches; `accRev` is the
reversed capture so far. -/
def capGo (accRev : List Char) : List Char → Option (List Char)
  | [] => if endAlt [] then some accRev.reverse else none
  | c :: rest =>
    if endAlt (c :: rest) then some accRev.reverse
    else capGo (c :: accRev) rest

/-- The shortest non-empty capture of `(.+?)(?:\n\s*\n|\n[A-Z][^\n]{0,60}:\s|$)`
starting at this position, if any. -/
def findCapture : List Char → Option (List Char)
  | [] => none
  | c :: rest => capGo [c] rest

/-- The capture of `([^\n]+)` (greedy, no `re.S`): the maximal non-empty run
of non-newline characters at this position. -/
def singleCapture (rest : List Char) : Option (List Char) :=
  match rest.takeWhile (fun c => c != '\n') with
  | [] => none
  | run => some run

/-- The capture of `(\d{1,3})`: one to three digits, greedily. -/
def scoreCapture (rest : List Char) : Option (List Char) :=
  match (rest.takeWhile Char.isDigit).take 3 with
  | [] => none
  | ds => some ds

/-- Try one match of `lab\s*[:\-]?\s*` followed by the capture `cap`, anchored
at the start of `text`: label first, then every separator backtracking
candidate in engine order. -/
def matchAt (cap : List Char → Option (List Char)) (lab text : List Char) :
    Option (List Char) :=
  (stripPrefixCI lab text).bind fun rest0 => (sepCandidates rest0).findSome? cap

/-- `re.search` over the pattern `lab\s*[:\-]?\s*(capture)`: scan start
positions left to right and return the group of the leftmost match. -/
def reSearch (cap : List Char → Option (List Char)) (lab : List Char) :
    List Char → Option (List Char)
  | [] => matchAt cap lab []
  | c :: rest =>
    match matchAt cap lab (c :: rest) with
    | some g => some g
    | none => reSearch cap lab rest

/-- `_grab_block` (`app_complete.py` lines 218-226): labels tried in listed
order; the first whose pattern matches yields `m.group(1).strip()`; no label
matching yields `"-"`.  `multiline` selects between the block pattern
`(.+?)(?:\n\s*\n|\n[A-Z][^\n]{0,60}:\s|$)` (with `re.S`) and the line pattern
`([^\n]+)`. -/
def grab_block (text : String) (labels : List String) (multiline : Bool) : String :=
  match labels with
  | [] => "-"
  | lab :: rest =>
    match reSearch (if multiline then findCapture else singleCapture) lab.data text.data with
    | some g => pyStrip (String.mk g)
    | none => grab_block text rest multiline

/-- `_grab_score` (`app_complete.py` lines 228-233): labels tried in listed
order; the first whose pattern `lab\s*[:\-]?\s*(\d{1,3})` matches yields the
captured digit group (no strip); no label matching yields `"-"`. -/
def grab_score (text : String) (labels : List String) : String :=
  match labels with
  | [] => "-"
  | lab :: rest =>
    match reSearch scoreCapture lab.data text.data with
    | some ds => String.mk ds
    | none => grab_score text rest

/-- `_parse_fields` (`app_complete.py` lines 235-250): the record built from
the raw visible text, label synonyms exactly as listed in the source. -/
def parse_fields (url : String) (raw : String) : Record :=
  [("Company", grab_block raw ["Company", "Site Name", "Website Name"] false),
   ("URL", url),
   ("Overall Score", grab_score raw ["Overall Score", "Score", "Total Score"]),
   ("Description of Website",
     grab_block raw ["Description of Website", "Description", "Site Description"] true),
   ("Consumer Score", grab_score raw ["Consumer Score", "Customer Score", "End-user Score"]),
   ("Developer Score", grab_score raw ["Developer Score", "Engineer Score", "Dev Score"]),
   ("Investor Score", grab_score raw ["Investor Score"]),
   ("Clarity Score", grab_score raw ["Clarity Score", "Readability Score"]),
   ("Visual Design Score", grab_score raw ["Visual Design Score", "Design Score"]),
   ("UX Score", grab_score raw ["UX Score", "Usability Score"]),
   ("Trust Score", grab_score raw ["Trust Score", "Credibility Score"]),
   ("Value Prop Score", grab_score raw ["Value Prop Score", "Value Proposition Score"]),
   ("_raw", raw)]

end AppComplete

/-- Assignment `analysis_results[url] = data` on the run-state dict: replace
the entry of an existing key in place, else append. -/
def insertOrReplace : List (String × Record) → String → Record → List (String × Record)
  | [], k, v => [(k, v)]
  | p :: rest, k, v =>
    if p.1 = k then (k, v) :: rest else p :: insertOrReplace rest k v

/-- The process-lifetime `analysis_results` mapping of `app.py` (line 39). -/
abbrev RunState := List (String × Record)

namespace App

/-- The per-URL body of `stream_analysis`'s loop (`app.py` lines 492-519):
the events yielded for one URL and the run state after it.  `soupOf` is
BeautifulSoup's `html.parser` reading of the page source (the queries of
`_parse_ratemysite_html`, as data); `analyze` is `_analyze_one_with_debugging`
(page source and debug log; `analyze_one` below shows it total). -/
def processUrl (soupOf : String → Soup) (analyze : String → String × List String)
    (idx : Nat) (raw : String) (st : RunState) : List Event × RunState :=
  let url := normalize_url raw
  let res := analyze url
  let resEv :=
    if res.1 = "" then Event.result idx url none
    else Event.result idx url (some (parse_ratemysite_html (soupOf res.1) url))
  let record :=
    if res.1 = "" then errorRecord url
    else parse_ratemysite_html (soupOf res.1) url
  (Event.start_url idx url
     :: Event.progress idx "Creating fresh browser" 1 5
     :: Event.progress idx "Submitting to RateMySite" 2 5
     :: (res.2.map (Event.debug idx)
         ++ [Event.progress idx "Parsing output" 3 5,
             resEv,
             Event.progress idx "Done" 5 5]),
   insertOrReplace st url record)

/-- The loop of `stream_analysis` over the batch, with the 1-based
`enumerate` index, followed by the terminal `done` event. -/
def streamLoop (soupOf : String → Soup) (analyze : String → String × List String)
    (idx : Nat) (st : RunState) : List String → List Event × RunState
  | [] => ([Event.done true], st)
  | raw :: rest =>
    let step := processUrl soupOf analyze idx raw st
    let next := streamLoop soupOf analyze (idx + 1) step.2 rest
    (step.1 ++ next.1, next.2)

/-- `stream_analysis` (`app.py` lines 485-521): the event sequence of one
batch and the final run state.  `prev` is the global `analysis_results` value
when the generator starts; the first statement replaces it wholesale with an
empty dict, so `prev` is discarded. -/
def stream_analysis (soupOf : String → Soup) (analyze : String → String × List String)
    (prev : RunState) (urls : List String) : List Event × RunState :=
  let r := streamLoop soupOf analyze 1 [] urls
  (Event.init urls.length :: r.1, r.2)

end App

namespace AppComplete

/-- The per-URL section of `stream_analysis` in `app_complete.py` (lines
276-306), with analysis modelled as possibly raising (`.error`): the events
up to and including `progress 2` are yielded before `_analyze_one_with_debugging`
is called; an exception from it is not caught, so the generator terminates
there and yields nothing further (no `done` event).  On a normal return the
result event carries `_parse_fields` output, and the loop continues. -/
def streamLoop (analyze : String → Except String (String × List String))
    (idx : Nat) : List String → List Event
  | [] => [Event.done true]
  | raw :: rest =>
    let url := normalize_url raw
    let pre :=
      [Event.start_url idx url,
       Event.progress idx "Creating fresh browser" 1 5,
       Event.progress idx "Submitting to RateMySite" 2 5]
    match analyze url with
    | .error _ => pre
    | .ok res =>
      pre ++ res.2.map (Event.debug idx)
      ++ [Event.progress idx "Parsing output" 3 5]
      ++ [if res.1 = "" then Event.result idx url none
          else Event.result idx url (some (parse_fields url res.1))]
      ++ [Event.progress idx "Done" 4 5]
      ++ streamLoop analyze (idx + 1) rest

/-- `stream_analysis` (`app_complete.py` lines 272-308): `init` with the
batch size (and the table rows, not modelled), then the per-URL loop. -/
def stream_analysis (analyze : String → Except String (String × List String))
    (urls : List String) : List Event :=
  Event.init urls.length :: streamLoop analyze 1 urls

end AppComplete

/-- An HTTP response of the `/stream` route. -/
inductive StreamResponse where
  | badRequest (status : Nat) (body : String)
  | eventStream (mimetype : String) (events : List Event)
  deriving DecidableEq

/-- The list comprehension of both `/stream` routes (`app.py` line 529,
`app_complete.py` line 736): `[u.strip() for u in request.args.getlist("u") if u.strip()]`. -/
def parse_u_params (uParams : List String) : List String :=
  uParams.filterMap fun u => if pyStrip u = "" then none else some (pyStrip u)

namespace App

/-- The `/stream` route (`app.py` lines 527-532): with no non-blank `u`
parameter it answers 400 and never constructs the analysis generator;
otherwise it streams `stream_analysis` as `text/event-stream`. -/
def stream_route (soupOf : String → Soup) (analyze : String → String × List String)
    (prev : RunState) (uParams : List String) : StreamResponse :=
  let urls := parse_u_params uParams
  if urls.isEmpty then StreamResponse.badRequest 400 "Need at least one ?u="
  else StreamResponse.eventStream "text/event-stream" (stream_analysis soupOf analyze prev urls).1

end App

namespace AppComplete

/-- The `/stream` route (`app_complete.py` lines 734-739), identical in shape
to the one of `app.py`. -/
def stream_route (analyze : String → Except String (String × List String))
    (uParams : List String) : StreamResponse :=
  let urls := parse_u_params uParams
  if urls.isEmpty then StreamResponse.badRequest 400 "Need at least one ?u="
  else StreamResponse.eventStream "text/event-stream" (stream_analysis analyze urls)

end AppComplete

namespace App

/-- The `metrics` table of `create_excel_report` (`app.py` lines 402-425):
record key, row label and row type for every spreadsheet row. -/
def metricsTable : List (String × String × String) :=
  [("Company", "Company", "basic"),
   ("URL", "Website URL", "basic"),
   ("Overall Score", "Overall UI/UX Score", "score"),
   ("Description of Website", "Website Overview", "desc"),
   ("", "ðŸ‘¥ User Experience Analysis", "section"),
   ("Consumer Score", "Consumer Appeal Score", "score"),
   ("Consumer Score Description", "Consumer Experience Analysis", "desc"),
   ("Developer Score", "Technical Implementation Score", "score"),
   ("Developer Score Description", "Technical Assessment", "desc"),
   ("Investor Score", "Business Impact Score", "score"),
   ("Investor Score Description", "Business Value Analysis", "desc"),
   ("", "ðŸŽ¨ Design & Usability Metrics", "section"),
   ("Clarity Score", "Content Clarity Score", "score"),
   ("Clarity Score Description", "Content & Information Architecture", "desc"),
   ("Visual Design Score", "Visual Design Score", "score"),
   ("Visual Design Score Description", "Visual Design Assessment", "desc"),
   ("UX Score", "User Experience Score", "score"),
   ("UX Score Description", "UX & Navigation Analysis", "desc"),
   ("Trust Score", "Trust & Credibility Score", "score"),
   ("Trust Score Description", "Trust Indicators Assessment", "desc"),
   ("Value Prop Score", "Value Communication Score", "score"),
   ("Value Prop Score Description", "Value Proposition Clarity", "desc")]

/-- `result.get(key, default)` on a Result Record. -/
def recordGetD (r : Record) (key default : String) : String :=
  match r.find? fun p => p.1 = key with
  | some p => p.2
  | none => default

/-- The cell contents of the generated workbook (styling, merged title rows
and column widths are presentation only and not modelled): the header row of
company names and, per metrics row, its label and the per-result values
`result.get(key, "-")`; a section row spans the sheet and carries no values. -/
structure ExcelData where
  headers : List String
  rows : List (String × List String)
  deriving DecidableEq

/-- The data content of `create_excel_report` (`app.py` lines 351-478). -/
def create_excel_report (results_data : List Record) : ExcelData :=
  { headers := "UI/UX Metrics" :: results_data.map fun r => recordGetD r "Company" "Unknown",
    rows := metricsTable.map fun m =>
      if m.2.2 = "section" then (m.2.1, [])
      else (m.2.1, results_data.map fun r => recordGetD r m.1 "-") }

/-- An HTTP response of the `/download-excel` route. -/
inductive ExcelResponse where
  | errorJson (status : Nat) (msg : String)
  | file (data : ExcelData)
  deriving DecidableEq

/-- `download_excel` (`app.py` lines 534-555): with no stored results, a 400
JSON error; otherwise the spreadsheet built from
`list(analysis_results.values())`.  The route's `try/except` (a 500 JSON
error) guards environment failures of the workbook writer; the data-level
builder modelled here is total, so that branch is unreachable in the model. -/
def download_excel (analysis_results : RunState) : ExcelResponse :=
  if analysis_results.isEmpty then
    ExcelResponse.errorJson 400 "No analysis results available"
  else
    ExcelResponse.file (create_excel_report (analysis_results.map Prod.snd))

end App

namespace App

/-- Outcomes of the external calls `_analyze_one_with_debugging` (`app.py`
lines 142-230) performs, in program order.  Calls whose failures the source
swallows locally with no observable effect (`_maybe_close_cookie_banner`,
`input_el.clear()`, the sleeps) need no field.  `waitMarker` distinguishes
the marker found (`.ok true`), a `TimeoutException` (`.ok false`) and any
other exception (`.error`, reaching the outer handler). -/
structure Env where
  makeDriver : Except String Unit
  navigate : Except String Unit
  waitInput : Except String Unit
  findInputFallback : Option Unit
  bodyText : Except String String
  sendKeys : Except String Unit
  clickSubmit : Bool
  sendEnter : Except String Unit
  waitMarker : Except String Bool
  pageHtml : String
  tracebackText : String

/-- The `try` block of `_analyze_one_with_debugging` (`app.py` lines
146-218): either the returned `(result_html, debug_log)` pair, or the raised
exception together with the debug log accumulated up to that point. -/
def tryBody (env : Env) (target_url : String) :
    Except (String × List String) (String × List String) :=
  let l := ["Creating fresh Chrome driver..."]
  match env.makeDriver with
  | .error e => .error (e, l)
  | .ok _ =>
  let l := l ++ ["Navigating to " ++ RATEMYSITE_URL]
  match env.navigate with
  | .error e => .error (e, l)
  | .ok _ =>
  let l := l ++ ["Checking for cookie banners...", "Looking for input field..."]
  let found :=
    match env.waitInput with
    | .ok _ => (l ++ ["Found input field using wait condition"], true)
    | .error e =>
      let l := l ++ ["Wait condition failed: " ++ e]
      match env.findInputFallback with
      | some _ => (l ++ ["Found input field using fallback method"], true)
      | none => (l, false)
  let l := found.1
  if found.2 then
    let l := l ++ ["Entering URL: " ++ target_url]
    match env.sendKeys with
    | .error e => .error (e, l)
    | .ok _ =>
    let l := l ++ ["Attempting to submit..."]
    let l :=
      if env.clickSubmit then l ++ ["Successfully clicked submit button"]
      else
        let l := l ++ ["Button click failed, trying Enter key..."]
        match env.sendEnter with
        | .ok _ => l ++ ["Sent Enter key"]
        | .error e => l ++ ["Enter key failed: " ++ e]
    let l := l ++ ["Waiting for results to load..."]
    match env.waitMarker with
    | .error e => .error (e, l)
    | .ok markerFound =>
      let l := l ++
        (if markerFound then ["Found Overall Score element"]
         else ["Overall Score not found, waiting for general content..."])
      let l := l ++ ["Extracting result HTML..."]
      let html := env.pageHtml
      .ok (html, l ++ ["Extracted " ++ toString html.length ++ " characters of HTML"])
  else
    let l := l ++ ["ERROR: Could not locate input field!"]
    let l :=
      match env.bodyText with
      | .ok t => l ++ ["Body text: " ++ pyTake t 500]
      | .error e => l ++ ["Could not get body text: " ++ e]
    .ok ("", l)

/-- `_analyze_one_with_debugging` (`app.py` lines 142-230).  The whole body,
driver creation included, sits inside `try`; `except Exception` logs the
error and returns `("", debug_log)`; `finally` appends `"Closing driver..."`
when a driver exists and swallows any `driver.quit()` failure, mutating the
returned log before the return completes.  The function therefore never
raises: its result is always `.ok`. -/
def analyze_one (env : Env) (target_url : String) : Except String (String × List String) :=
  let r :=
    match tryBody env target_url with
    | .ok p => p
    | .error el =>
      ("", el.2 ++ ["ERROR in analysis: " ++ el.1, "Traceback: " ++ env.tracebackText])
  match env.makeDriver with
  | .ok _ => .ok (r.1, r.2 ++ ["Closing driver..."])
  | .error _ => .ok r

/-- The render-wait section of `_analyze_one_with_debugging` (`app.py` lines
203-213) as a Render Waiter trace: wait for the `Overall Score` marker within
the timeout; on `TimeoutException`, `time.sleep(5)` — there is no body-text
growth polling in this variant. -/
def render_wait (timeoutS : Nat) (markerFound : Bool) : List WaitStep :=
  if markerFound then [WaitStep.markerWait timeoutS true]
  else [WaitStep.markerWait timeoutS false, WaitStep.fixedSleep 5]

end App

namespace AppComplete

/-- Outcomes of the external calls `_analyze_one_with_debugging`
(`app_complete.py` lines 120-216) performs, in program order; like `App.Env`
plus the unguarded `driver.quit()` of the `finally` block, the
`_collect_result_text` value and the page-text read of the empty-result
debug branch. -/
structure Env where
  makeDriver : Except String Unit
  navigate : Except String Unit
  waitInput : Except String Unit
  findInputFallback : Option Unit
  bodyText : Except String String
  sendKeys : Except String Unit
  clickSubmit : Bool
  sendEnter : Except String Unit
  waitMarker : Except String Bool
  resultText : String
  pageText : Except String String
  tracebackText : String
  quitDriver : Except String Unit

/-- The `try` block of `_analyze_one_with_debugging` (`app_complete.py`
lines 125-208).  Note the `TimeoutException` branch of the render wait runs
`_wait_for_content_growth` (itself total) and logs around it, and an empty
extracted text triggers the page-debug block. -/
def tryBody (env : Env) (target_url : String) :
    Except (String × List String) (String × List String) :=
  let l := ["Creating fresh Chrome driver...", "Navigating to " ++ RATEMYSITE_URL]
  match env.navigate with
  | .error e => .error (e, l)
  | .ok _ =>
  let l := l ++ ["Checking for cookie banners...", "Looking for input field..."]
  let found :=
    match env.waitInput with
    | .ok _ => (l ++ ["Found input field using wait condition"], true)
    | .error e =>
      let l := l ++ ["Wait condition failed: " ++ e]
      match env.findInputFallback with
      | some _ => (l ++ ["Found input field using fallback method"], true)
      | none => (l, false)
  let l := found.1
  if found.2 then
    let l := l ++ ["Entering URL: " ++ target_url]
    match env.sendKeys with
    | .error e => .error (e, l)
    | .ok _ =>
    let l := l ++ ["Attempting to submit..."]
    let l :=
      if env.clickSubmit then l ++ ["Successfully clicked submit button"]
      else
        let l := l ++ ["Button click failed, trying Enter key..."]
        match env.sendEnter with
        | .ok _ => l ++ ["Sent Enter key"]
        | .error e => l ++ ["Enter key failed: " ++ e]
    let l := l ++ ["Waiting for results to load..."]
    match env.waitMarker with
    | .error e => .error (e, l)
    | .ok markerFound =>
      let l := l ++
        (if markerFound then ["Found result container"]
         else ["No result container found, waiting for content growth...",
               "Finished waiting for content growth"])
      let l := l ++ ["Extracting result text..."]
      let txt := env.resultText
      let l := l ++ ["Extracted " ++ toString txt.length ++ " characters of result text"]
      if txt = "" then
        let l := l ++ ["No result text found! Getting page debug info..."]
        let l :=
          match env.pageText with
          | .ok t => l ++ ["Full page text length: " ++ toString t.length,
                           "Page text preview: " ++ pyTake t 800]
          | .error e => l ++ ["Could not get page text: " ++ e]
        .ok (txt, l)
      else
        .ok (txt, l)
  else
    let l := l ++ ["ERROR: Could not locate input field!"]
    let l :=
      match env.bodyText with
      | .ok t => l ++ ["Body text: " ++ pyTake t 500]
      | .error e => l ++ ["Could not get body text: " ++ e]
    .ok ("", l)

/-- `_analyze_one_with_debugging` (`app_complete.py` lines 120-216).  Unlike
the `app.py` variant, `driver = _make_driver(...)` (line 122) runs BEFORE the
`try`, so a driver-creation failure propagates out of the function; and the
`finally` block's `driver.quit()` (line 216) is unguarded, so its failure
propagates too (replacing the pending result). -/
def analyze_one (env : Env) (target_url : String) : Except String (String × List String) :=
  match env.makeDriver with
  | .error e => .error e
  | .ok _ =>
    let r :=
      match tryBody env target_url with
      | .ok p => p
      | .error el =>
        ("", el.2 ++ ["ERROR in analysis: " ++ el.1, "Traceback: " ++ env.tracebackText])
    let r := (r.1, r.2 ++ ["Closing driver..."])
    match env.quitDriver with
    | .error e => .error e
    | .ok _ => .ok r

/-- `_wait_for_content_growth` (`app_complete.py` lines 99-107), identical to
the terminal variant's.  `app.py` also carries a copy (lines 103-111) but
never calls it. -/
def wait_for_content_growth (timeoutS minGrowth : Nat) (grew : Bool) : List WaitStep :=
  [WaitStep.growthPoll timeoutS minGrowth grew]

/-- The render-wait section of `_analyze_one_with_debugging`
(`app_complete.py` lines 181-192) as a Render Waiter trace: marker wait, then
on `TimeoutException` the body-text growth poll with `min_growth=120`,
bounded by the same `wait` object. -/
def render_wait (timeoutS : Nat) (markerFound : Bool) (grew : Bool) : List WaitStep :=
  if markerFound then [WaitStep.markerWait timeoutS true]
  else WaitStep.markerWait timeoutS false :: wait_for_content_growth timeoutS 120 grew

end AppComplete

/-- The constant `DEFAULT_TIMEOUT` shared by all three source files. -/
def DEFAULT_TIMEOUT : Nat := 45

/-- The soup of a document none of whose queried elements exist (what
BeautifulSoup yields for an empty or unrelated page). -/
def emptySoup : App.Soup := ⟨none, none, [], []⟩

/-- A soup oracle for runs whose page source is never parsed successfully. -/
def soupOfNothing : String → App.Soup := fun _ => emptySoup

/-- An analysis oracle whose every run yields no page source and no debug
lines (the shape `_analyze_one_with_debugging` returns when the input field
is never found). -/
def analyzeNothing : String → String × List String := fun _ => ("", [])

/-- An `app.py` environment in which every external call succeeds. -/
def envAppOk : App.Env :=
  ⟨.ok (), .ok (), .ok (), none, .ok "", .ok (), true, .ok (), .ok true, "<html></html>", "tb"⟩

/-- An `app.py` environment in which `input_el.send_keys(target_url)` raises. -/
def envAppSendKeysRaises : App.Env :=
  ⟨.ok (), .ok (), .ok (), none, .ok "", .error "ElementNotInteractableException", true,
   .ok (), .ok true, "<html></html>", "tb"⟩

/-- An `app_complete.py` environment in which every external call succeeds. -/
def envCompleteOk : AppComplete.Env :=
  ⟨.ok (), .ok (), .ok (), none, .ok "", .ok (), true, .ok (), .ok true,
   "Overall Score: 85", .ok "", "tb", .ok ()⟩

/-- An `app_complete.py` environment in which `_make_driver` raises (for
example, ChromeDriver cannot be installed or the browser session cannot be
created); every later call would succeed. -/
def envCompleteDriverRaises : AppComplete.Env :=
  ⟨.error "SessionNotCreatedException", .ok (), .ok (), none, .ok "", .ok (), true,
   .ok (), .ok true, "Overall Score: 85", .ok "", "tb", .ok ()⟩

/-!
Theorems: helper lemmas first, then one theorem per claim (with its witness or
counterexample where the claim calls for one).
-/

/-- `find_first` agrees with "first selector whose element is visible". -/
theorem find_first_eq_find? (driver : String → FindOutcome) (xps : List String) :
    find_first driver xps
      = ((xps.find? fun xp => (visibleOf (driver xp)).isSome).bind
          fun xp => visibleOf (driver xp)) := by
  induction xps with
  | nil => rfl
  | cons xp rest ih =>
    simp only [find_first, List.find?_cons]
    cases h : driver xp with
    | found el displayed => cases displayed <;> simp [h, visibleOf, ih]
    | noSuchElement => simp [h, visibleOf, ih]
    | staleElement => simp [h, visibleOf, ih]

/-- `find_first` is `none` exactly when no selector yields a visible element. -/
theorem find_first_isNone_eq_all (driver : String → FindOutcome) (xps : List String) :
    (find_first driver xps).isNone = xps.all fun xp => (visibleOf (driver xp)).isNone := by
  induction xps with
  | nil => rfl
  | cons xp rest ih =>
    simp only [find_first, List.all_cons]
    cases h : driver xp with
    | found el displayed => cases displayed <;> simp [h, visibleOf, ih]
    | noSuchElement => simp [h, visibleOf, ih]
    | staleElement => simp [h, visibleOf, ih]

/-- C7: for every ordered selector list, `_find_first` returns the first
selector's element that is present and visible (the `find?`-characterisation
below), and an absent result exactly when no selector yields a visible
element; the two modelled structural exceptions merely advance the scan, and
the function is total, so they never propagate. -/
theorem c7_find_first (driver : String → FindOutcome) (xps : List String) :
    (find_first driver xps
      = ((xps.find? fun xp => (visibleOf (driver xp)).isSome).bind
          fun xp => visibleOf (driver xp)))
    ∧ ((find_first driver xps).isNone
        = xps.all fun xp => (visibleOf (driver xp)).isNone) :=
  ⟨find_first_eq_find? driver xps, find_first_isNone_eq_all driver xps⟩

/-- C5 (amended): in `rate_site_terminal.py` and `app_complete.py` the Render
Waiter is the two-strategy cascade of the claim — marker wait, then on
timeout one body-text growth poll past threshold 120 bounded by the same
timeout, with fall-through when both fail; in `app.py` the fallback after the
marker timeout is a fixed five-second sleep and no growth polling happens. -/
theorem c5_render_waiter_amended (t : Nat) (marker grew : Bool) :
    Terminal.render_wait t true grew = [WaitStep.markerWait t true]
    ∧ Terminal.render_wait t false grew
        = [WaitStep.markerWait t false, WaitStep.growthPoll t 120 grew]
    ∧ AppComplete.render_wait t true grew = [WaitStep.markerWait t true]
    ∧ AppComplete.render_wait t false grew
        = [WaitStep.markerWait t false, WaitStep.growthPoll t 120 grew]
    ∧ App.render_wait t true = [WaitStep.markerWait t true]
    ∧ App.render_wait t false = [WaitStep.markerWait t false, WaitStep.fixedSleep 5]
    ∧ (App.render_wait t marker).countP WaitStep.isGrowthPoll = 0 := by
  refine ⟨rfl, rfl, rfl, rfl, rfl, rfl, ?_⟩
  cases marker <;> rfl

/-- C5 (counterexample): at the default timeout, the `app.py` Render Waiter's
fallback branch is a fixed sleep and contains no growth poll, while the
terminal variant's does poll for growth. -/
theorem c5_render_waiter_counterexample :
    App.render_wait DEFAULT_TIMEOUT false
      = [WaitStep.markerWait DEFAULT_TIMEOUT false, WaitStep.fixedSleep 5]
    ∧ (App.render_wait DEFAULT_TIMEOUT false).countP WaitStep.isGrowthPoll = 0
    ∧ (Terminal.render_wait DEFAULT_TIMEOUT false false).countP WaitStep.isGrowthPoll = 1 :=
  ⟨rfl, rfl, rfl⟩

/-- C3 (amended): both `stream_analysis` entry points normalize every batch
entry — an entry without an `http://`/`https://` scheme gets `https://`
prefixed, a schemed one passes through unchanged, and the per-URL processing
(witnessed by the `start_url` event) uses exactly the normalized URL.  The
command-line entry point, however, does not normalize: it strips the argument
and rejects it (exit code 1) unless it already starts with `http://` or
`https://`, passing a schemed argument through unchanged. -/
theorem c3_url_normalization_amended (raw arg : String) (soupOf : String → App.Soup)
    (analyze : String → String × List String)
    (analyzeC : String → Except String (String × List String)) (prev : RunState) :
    ((pyStartsWith raw "http://" || pyStartsWith raw "https://") = true →
       normalize_url raw = raw)
    ∧ ((pyStartsWith raw "http://" || pyStartsWith raw "https://") = false →
       normalize_url raw = "https://" ++ raw)
    ∧ (App.stream_analysis soupOf analyze prev [raw]).1[1]?
        = some (Event.start_url 1 (normalize_url raw))
    ∧ (AppComplete.stream_analysis analyzeC [raw])[1]?
        = some (Event.start_url 1 (normalize_url raw))
    ∧ ((pyStartsWith (pyStrip arg) "http://" || pyStartsWith (pyStrip arg) "https://") = true →
       Terminal.cli_main arg = Terminal.CliAction.runWith (pyStrip arg))
    ∧ ((pyStartsWith (pyStrip arg) "http://" || pyStartsWith (pyStrip arg) "https://") = false →
       Terminal.cli_main arg = Terminal.CliAction.reject 1) := by
  refine ⟨?_, ?_, rfl, ?_, ?_, ?_⟩
  · intro h; simp [normalize_url, h]
  · intro h; simp [normalize_url, h]
  · cases h : analyzeC (normalize_url raw) <;>
      simp [AppComplete.stream_analysis, AppComplete.streamLoop, h]
  · intro h; simp [Terminal.cli_main, h]
  · intro h; simp [Terminal.cli_main, h]

/-- C3 (counterexample): the command-line entry point, given the schemeless
URL `example.com`, does not analyze `https://example.com`; it exits with an
error instead, while `normalize_url` (the web variants' rule the claim
extends to the CLI) would have produced `https://example.com`. -/
theorem c3_url_normalization_counterexample :
    Terminal.cli_main "example.com" = Terminal.CliAction.reject 1
    ∧ normalize_url "example.com" = "https://example.com" :=
  ⟨by decide, by decide⟩

/-- Updating an existing key leaves the key list of a record unchanged. -/
theorem setKey_keys (r : Record) (k v : String) :
    (App.setKey r k v).map Prod.fst = r.map Prod.fst := by
  induction r with
  | nil => rfl
  | cons p rest ih =>
    by_cases h : p.1 = k
    · simp [App.setKey, h]
    · simp [App.setKey, h, ih]

/-- One audience-card step leaves the key list unchanged. -/
theorem applyAudienceCard_keys (r : Record) (c : App.Card) :
    (App.applyAudienceCard r c).map Prod.fst = r.map Prod.fst := by
  cases hc : c.title with
  | none => simp [App.applyAudienceCard, hc]
  | some title =>
    cases hd : c.desc <;> simp only [App.applyAudienceCard, hc, hd] <;>
      split_ifs <;> simp [setKey_keys]

/-- One technical-card step leaves the key list unchanged. -/
theorem applyTechCard_keys (r : Record) (c : App.Card) :
    (App.applyTechCard r c).map Prod.fst = r.map Prod.fst := by
  cases hc : c.title with
  | none => simp [App.applyTechCard, hc]
  | some title =>
    cases hd : c.desc <;> simp only [App.applyTechCard, hc, hd] <;>
      split_ifs <;> simp [setKey_keys]

/-- Folding card steps over a record leaves the key list unchanged. -/
theorem foldl_cards_keys (step : Record → App.Card → Record)
    (hstep : ∀ r c, (step r c).map Prod.fst = r.map Prod.fst) :
    ∀ (cards : List App.Card) (r : Record),
      (cards.foldl step r).map Prod.fst = r.map Prod.fst := by
  intro cards
  induction cards with
  | nil => intro r; rfl
  | cons c rest ih => intro r; rw [List.foldl_cons, ih, hstep]

/-- The key list of `_parse_ratemysite_html`'s result is the fixed key set,
for every soup and URL. -/
theorem parse_ratemysite_html_keys (soup : App.Soup) (url : String) :
    (App.parse_ratemysite_html soup url).map Prod.fst = App.fixedKeys := by
  unfold App.parse_ratemysite_html
  rw [foldl_cards_keys App.applyTechCard applyTechCard_keys,
      foldl_cards_keys App.applyAudienceCard applyAudienceCard_keys]
  cases hs : soup.overallScore <;> cases hd : soup.description <;>
    simp only [hs, hd] <;> try split_ifs
  all_goals simp [setKey_keys, App.baseRecord, App.fixedKeys]

/-- C1 (amended): `_parse_ratemysite_html` always returns the complete fixed
key set (placeholder `"-"` for everything it could not extract);
`_parse_fields` always returns its own fixed key set, which has the
per-category scores but no per-category description keys (plus `_raw`); and
the failure branch of `app.py`'s `stream_analysis` stores a record with only
the three keys `Company`, `URL` and `Overall Score`. -/
theorem c1_fixed_keys_amended (soup : App.Soup) (url raw : String) :
    (App.parse_ratemysite_html soup url).map Prod.fst = App.fixedKeys
    ∧ (AppComplete.parse_fields url raw).map Prod.fst
        = ["Company", "URL", "Overall Score", "Description of Website",
           "Consumer Score", "Developer Score", "Investor Score", "Clarity Score",
           "Visual Design Score", "UX Score", "Trust Score", "Value Prop Score", "_raw"]
    ∧ (App.errorRecord url).map Prod.fst = ["Company", "URL", "Overall Score"] :=
  ⟨parse_ratemysite_html_keys soup url, rfl, rfl⟩

/-- C1 (counterexample): a batch whose analysis fails stores, for
`https://example.com`, exactly the three-key failure record; that record has
no `Consumer Score` key, and `_parse_fields` output has no
`Consumer Score Description` key — the complete per-category
score/description key set claimed is absent from both. -/
theorem c1_fixed_keys_counterexample :
    (App.stream_analysis soupOfNothing analyzeNothing [] ["example.com"]).2
      = [("https://example.com", App.errorRecord "https://example.com")]
    ∧ ((App.errorRecord "https://example.com").map Prod.fst).contains "Consumer Score" = false
    ∧ ((AppComplete.parse_fields "https://example.com" "x").map Prod.fst).contains
        "Consumer Score Description" = false :=
  ⟨by decide, by decide, by decide⟩

/-- Membership in the key list after one dict assignment. -/
theorem insertOrReplace_keys_mem (st : RunState) (k : String) (v : Record) (u : String) :
    u ∈ (insertOrReplace st k v).map Prod.fst ↔ u = k ∨ u ∈ st.map Prod.fst := by
  induction st with
  | nil => simp [insertOrReplace]
  | cons p rest ih =>
    by_cases h : p.1 = k
    · simp [insertOrReplace, h] <;> tauto
    · simp [insertOrReplace, h, ih] <;> tauto

/-- The keys of the run state after the batch loop: the keys it started with
plus the normalized URLs of the batch. -/
theorem streamLoop_state_mem (soupOf : String → App.Soup)
    (analyze : String → String × List String) :
    ∀ (urls : List String) (idx : Nat) (st : RunState) (u : String),
      u ∈ (App.streamLoop soupOf analyze idx st urls).2.map Prod.fst
        ↔ u ∈ st.map Prod.fst ∨ u ∈ urls.map normalize_url := by
  intro urls
  induction urls with
  | nil => intro idx st u; simp [App.streamLoop]
  | cons raw rest ih =>
    intro idx st u
    simp only [App.streamLoop]
    rw [ih]
    simp only [App.processUrl]
    rw [insertOrReplace_keys_mem]
    simp only [List.map_cons, List.mem_cons]
    tauto

/-- C9: `stream_analysis` replaces the run state wholesale before processing
any URL — the final state is the same whatever the previous state was — and
after the batch the state's keys are exactly the normalized URLs of that
batch (each mapping to the record its last processing stored). -/
theorem c9_run_state (soupOf : String → App.Soup)
    (analyze : String → String × List String) (prev prev' : RunState)
    (urls : List String) (u : String) :
    (App.stream_analysis soupOf analyze prev urls).2
      = (App.stream_analysis soupOf analyze prev' urls).2
    ∧ (u ∈ (App.stream_analysis soupOf analyze prev urls).2.map Prod.fst
        ↔ u ∈ urls.map normalize_url) := by
  constructor
  · rfl
  · have h := streamLoop_state_mem soupOf analyze urls 1 [] u
    simpa [App.stream_analysis] using h

/-- C6: `/download-excel` with an empty run state answers a 400 error (no
spreadsheet, and the route is total, so nothing is raised); with stored
results it answers the spreadsheet built from the state's records. -/
theorem c6_download_excel (st : RunState) (hne : st ≠ []) :
    App.download_excel [] = App.ExcelResponse.errorJson 400 "No analysis results available"
    ∧ App.download_excel st
        = App.ExcelResponse.file (App.create_excel_report (st.map Prod.snd)) := by
  constructor
  · rfl
  · cases st with
    | nil => exact absurd rfl hne
    | cons p rest => rfl

/-- C6 (witness): a one-record state is non-empty, the empty-state request
errors, and the one-record request returns its spreadsheet. -/
theorem c6_download_excel_witness :
    ([("https://example.com", App.errorRecord "https://example.com")] : RunState) ≠ []
    ∧ (App.download_excel []
         = App.ExcelResponse.errorJson 400 "No analysis results available"
       ∧ App.download_excel [("https://example.com", App.errorRecord "https://example.com")]
           = App.ExcelResponse.file (App.create_excel_report
               ([("https://example.com", App.errorRecord "https://example.com")].map Prod.snd))) :=
  ⟨by decide,
   c6_download_excel [("https://example.com", App.errorRecord "https://example.com")] (by decide)⟩

/-- The filtered `u` parameters are empty exactly when every raw parameter is
blank after stripping. -/
theorem parse_u_params_eq_nil (uParams : List String) :
    parse_u_params uParams = [] ↔ ∀ u ∈ uParams, pyStrip u = "" := by
  unfold parse_u_params
  rw [List.filterMap_eq_nil_iff]
  constructor
  · intro h u hu
    have hc := h u hu
    by_cases hs : pyStrip u = ""
    · exact hs
    · simp [hs] at hc
  · intro h u hu
    simp [h u hu]

/-- C10: a `/stream` request with no non-blank `u` value answers 400 in both
web variants (the analysis generator is never built), and a request with at
least one non-blank `u` value answers a `text/event-stream` response built
from the filtered, stripped parameters. -/
theorem c10_stream_route (soupOf : String → App.Soup)
    (analyzeA : String → String × List String)
    (analyzeC : String → Except String (String × List String))
    (prev : RunState) (uParams : List String) :
    ((∀ u ∈ uParams, pyStrip u = "") →
       App.stream_route soupOf analyzeA prev uParams
           = StreamResponse.badRequest 400 "Need at least one ?u="
       ∧ AppComplete.stream_route analyzeC uParams
           = StreamResponse.badRequest 400 "Need at least one ?u=")
    ∧ (∀ u0 ∈ uParams, pyStrip u0 ≠ "" →
       App.stream_route soupOf analyzeA prev uParams
           = StreamResponse.eventStream "text/event-stream"
               (App.stream_analysis soupOf analyzeA prev (parse_u_params uParams)).1
       ∧ AppComplete.stream_route analyzeC uParams
           = StreamResponse.eventStream "text/event-stream"
               (AppComplete.stream_analysis analyzeC (parse_u_params uParams))) := by
  constructor
  · intro h
    have hnil : parse_u_params uParams = [] := (parse_u_params_eq_nil uParams).mpr h
    constructor
    · simp [App.stream_route, hnil]
    · simp [AppComplete.stream_route, hnil]
  · intro u0 hu0 hne
    have hnonnil : parse_u_params uParams ≠ [] := fun hnil =>
      hne ((parse_u_params_eq_nil uParams).mp hnil u0 hu0)
    have hempty : (parse_u_params uParams).isEmpty = false := by
      cases h : parse_u_params uParams with
      | nil => exact absurd h hnonnil
      | cons a l => rfl
    constructor
    · simp [App.stream_route, hempty]
    · simp [AppComplete.stream_route, hempty]

/-- An oracle whose analysis always returns normally (empty page source, no
debug lines) in the exception-aware interface. -/
def analyzeNothingOk : String → Except String (String × List String) :=
  fun _ => Except.ok ("", [])

/-- The protocol the spec ascribes to one batch's event stream: exactly one
`init`, which is the very first event (hence strictly before any `result`),
and exactly one `done`, which is the last event. -/
def streamProtocolOk (evs : List Event) (total : Nat) : Prop :=
  evs.countP Event.isInit = 1
  ∧ evs.countP Event.isDone = 1
  ∧ evs.head? = some (Event.init total)
  ∧ evs.getLast? = some (Event.done true)
  ∧ ∀ i, (h : i < evs.length) → Event.isResult (evs.get ⟨i, h⟩) = true → 0 < i

/-- Event-kind counts of one `app.py` per-URL chunk: no `init`, no `done`,
exactly one `result`. -/
theorem processUrl_counts (soupOf : String → App.Soup)
    (analyze : String → String × List String) (idx : Nat) (raw : String) (st : RunState) :
    (App.processUrl soupOf analyze idx raw st).1.countP Event.isInit = 0
    ∧ (App.processUrl soupOf analyze idx raw st).1.countP Event.isDone = 0
    ∧ (App.processUrl soupOf analyze idx raw st).1.countP Event.isResult = 1 := by
  unfold App.processUrl
  by_cases h : (analyze (normalize_url raw)).1 = "" <;>
    refine ⟨?_, ?_, ?_⟩ <;>
    simp [h, List.countP_cons, List.countP_append, List.countP_map, List.countP_false,
      Function.comp, Event.isInit, Event.isDone, Event.isResult]

/-- Shape of the `app.py` batch loop's event list: a body with no `init`, no
`done` and one `result` per URL, then the terminal `done`. -/
theorem appStreamLoop_shape (soupOf : String → App.Soup)
    (analyze : String → String × List String) :
    ∀ (urls : List String) (idx : Nat) (st : RunState),
      ∃ l st', App.streamLoop soupOf analyze idx st urls = (l ++ [Event.done true], st')
        ∧ l.countP Event.isInit = 0 ∧ l.countP Event.isDone = 0
        ∧ l.countP Event.isResult = urls.length := by
  intro urls
  induction urls with
  | nil => intro idx st; exact ⟨[], st, rfl, rfl, rfl, rfl⟩
  | cons raw rest ih =>
    intro idx st
    obtain ⟨l, st', heq, h1, h2, h3⟩ :=
      ih (idx + 1) (App.processUrl soupOf analyze idx raw st).2
    obtain ⟨p1, p2, p3⟩ := processUrl_counts soupOf analyze idx raw st
    refine ⟨(App.processUrl soupOf analyze idx raw st).1 ++ l, st', ?_, ?_, ?_, ?_⟩
    · simp only [App.streamLoop]
      rw [heq, List.append_assoc]
    · simp [List.countP_append, h1, p1]
    · simp [List.countP_append, h2, p2]
    · simp [List.countP_append, h3, p3, List.length_cons]
      omega

/-- Shape of the `app_complete.py` batch loop's event list when every per-URL
analysis returns normally: a body with no `init`, no `done` and one `result`
per URL, then the terminal `done`. -/
theorem completeStreamLoop_shape (analyze : String → Except String (String × List String))
    (hok : ∀ u, ∃ r, analyze u = Except.ok r) :
    ∀ (urls : List String) (idx : Nat),
      ∃ l, AppComplete.streamLoop analyze idx urls = l ++ [Event.done true]
        ∧ l.countP Event.isInit = 0 ∧ l.countP Event.isDone = 0
        ∧ l.countP Event.isResult = urls.length := by
  intro urls
  induction urls with
  | nil => intro idx; exact ⟨[], rfl, rfl, rfl, rfl⟩
  | cons raw rest ih =>
    intro idx
    obtain ⟨r, hr⟩ := hok (normalize_url raw)
    obtain ⟨l, heq, h1, h2, h3⟩ := ih (idx + 1)
    refine ⟨Event.start_url idx (normalize_url raw)
        :: Event.progress idx "Creating fresh browser" 1 5
        :: Event.progress idx "Submitting to RateMySite" 2 5
        :: (r.2.map (Event.debug idx)
            ++ [Event.progress idx "Parsing output" 3 5,
                (if r.1 = "" then Event.result idx (normalize_url raw) none
                 else Event.result idx (normalize_url raw)
                        (some (AppComplete.parse_fields (normalize_url raw) r.1))),
                Event.progress idx "Done" 4 5]) ++ l, ?_, ?_, ?_, ?_⟩
    · simp only [AppComplete.streamLoop, hr]
      rw [heq]
      simp [List.append_assoc]
    all_goals
      by_cases h : r.1 = "" <;>
        simp [h, List.countP_cons, List.countP_append, List.countP_map, List.countP_false,
          Function.comp, Event.isInit, Event.isDone, Event.isResult, h1, h2, h3]

/-- A body with no `init` and no `done`, wrapped as `init :: body ++ [done]`,
satisfies the streaming protocol. -/
theorem protocol_of_shape (l : List Event) (total : Nat)
    (h1 : l.countP Event.isInit = 0) (h2 : l.countP Event.isDone = 0) :
    streamProtocolOk (Event.init total :: (l ++ [Event.done true])) total := by
  refine ⟨?_, ?_, rfl, ?_, ?_⟩
  · simp [List.countP_cons, List.countP_append, h1, Event.isInit, Event.isDone]
  · simp [List.countP_cons, List.countP_append, h2, Event.isInit, Event.isDone]
  · rw [← List.cons_append, List.getLast?_append]
    rfl
  · intro i h hres
    cases i with
    | zero => simp [Event.isResult] at hres
    | succ n => exact Nat.succ_pos n

/-- C2 (amended): for every batch, `app.py`'s `stream_analysis` emits exactly
one `init` (the first event, hence strictly before any `result`) and exactly
one `done` (the last event); `app_complete.py`'s does the same provided every
per-URL analysis returns normally — its analysis call is not guarded, so an
exception there ends the stream without a `done` (see the counterexample). -/
theorem c2_stream_protocol_amended (soupOf : String → App.Soup)
    (analyzeA : String → String × List String)
    (analyzeC : String → Except String (String × List String))
    (prev : RunState) (urls : List String)
    (hne : urls ≠ [])
    (hok : ∀ u, ∃ r, analyzeC u = Except.ok r) :
    streamProtocolOk (App.stream_analysis soupOf analyzeA prev urls).1 urls.length
    ∧ streamProtocolOk (AppComplete.stream_analysis analyzeC urls) urls.length := by
  constructor
  · obtain ⟨l, st', heq, h1, h2, _⟩ := appStreamLoop_shape soupOf analyzeA urls 1 []
    have hev : (App.stream_analysis soupOf analyzeA prev urls).1
        = Event.init urls.length :: (l ++ [Event.done true]) := by
      simp [App.stream_analysis, heq]
    rw [hev]
    exact protocol_of_shape l urls.length h1 h2
  · obtain ⟨l, heq, h1, h2, _⟩ := completeStreamLoop_shape analyzeC hok urls 1
    have hev : AppComplete.stream_analysis analyzeC urls
        = Event.init urls.length :: (l ++ [Event.done true]) := by
      simp [AppComplete.stream_analysis, heq]
    rw [hev]
    exact protocol_of_shape l urls.length h1 h2

/-- C2 (witness): the one-URL batch `example.com`, with an analysis oracle
that always returns, satisfies both hypotheses and both protocols. -/
theorem c2_stream_protocol_witness :
    (["example.com"] : List String) ≠ []
    ∧ (∀ u, ∃ r, analyzeNothingOk u = Except.ok r)
    ∧ (streamProtocolOk
         (App.stream_analysis soupOfNothing analyzeNothing [] ["example.com"]).1 1
       ∧ streamProtocolOk (AppComplete.stream_analysis analyzeNothingOk ["example.com"]) 1) :=
  ⟨by decide, fun _ => ⟨("", []), rfl⟩,
   c2_stream_protocol_amended soupOfNothing analyzeNothing analyzeNothingOk [] ["example.com"]
     (by decide) (fun _ => ⟨("", []), rfl⟩)⟩

/-- C2 (counterexample): in `app_complete.py`, when the analysis of the
(non-empty) batch `["example.com"]` raises — for example because driver
creation fails — the stream ends after the second progress event: it contains
no `done` event at all, so `done` is not the last event of the batch. -/
theorem c2_stream_protocol_counterexample :
    AppComplete.stream_analysis (fun _ => Except.error "SessionNotCreatedException")
        ["example.com"]
      = [Event.init 1, Event.start_url 1 "https://example.com",
         Event.progress 1 "Creating fresh browser" 1 5,
         Event.progress 1 "Submitting to RateMySite" 2 5]
    ∧ (AppComplete.stream_analysis (fun _ => Except.error "SessionNotCreatedException")
        ["example.com"]).countP Event.isDone = 0 :=
  ⟨by decide, by decide⟩

/-- C4 (amended): in `app.py`, `_analyze_one_with_debugging` never raises —
for every environment of external-call outcomes it returns a (page source,
debug log) pair — and when its `try` body raises, the exception is appended
to the returned debug log and the page source is empty; consequently every
URL of a batch yields its `result` event.  In `app_complete.py` the same
holds only once driver creation and the unguarded `driver.quit()` succeed:
those two calls sit outside the protection and their failures propagate (see
the counterexample). -/
theorem c4_error_handling_amended
    (env : App.Env) (url : String) (e : String) (l : List String)
    (envC : AppComplete.Env) (urlC : String)
    (soupOf : String → App.Soup) (analyze : String → String × List String)
    (prev : RunState) (urls : List String)
    (herr : App.tryBody env url = Except.error (e, l))
    (hmk : envC.makeDriver = Except.ok ())
    (hquit : envC.quitDriver = Except.ok ()) :
    (∀ (env' : App.Env) (url' : String), ∃ out, App.analyze_one env' url' = Except.ok out)
    ∧ (∃ log, App.analyze_one env url = Except.ok ("", log)
        ∧ ("ERROR in analysis: " ++ e) ∈ log)
    ∧ (App.stream_analysis soupOf analyze prev urls).1.countP Event.isResult = urls.length
    ∧ (∃ out, AppComplete.analyze_one envC urlC = Except.ok out) := by
  refine ⟨?_, ?_, ?_, ?_⟩
  · intro env' url'
    cases h : App.tryBody env' url' <;> cases hm : env'.makeDriver <;>
      simp [App.analyze_one, h, hm]
  · cases hm : env.makeDriver with
    | ok u =>
      refine ⟨(l ++ ["ERROR in analysis: " ++ e, "Traceback: " ++ env.tracebackText])
          ++ ["Closing driver..."], ?_, ?_⟩
      · simp [App.analyze_one, herr, hm]
      · simp
    | error e0 =>
      refine ⟨l ++ ["ERROR in analysis: " ++ e, "Traceback: " ++ env.tracebackText], ?_, ?_⟩
      · simp [App.analyze_one, herr, hm]
      · simp
  · obtain ⟨l', st', heq, _, _, h3⟩ := appStreamLoop_shape soupOf analyze urls 1 []
    simp [App.stream_analysis, heq, List.countP_cons, List.countP_append,
      Event.isResult, h3]
  · cases h : AppComplete.tryBody envC urlC <;>
      simp [AppComplete.analyze_one, h, hmk, hquit]

/-- C4 (witness): a concrete environment whose `send_keys` raises satisfies
the `try`-body-failure hypothesis (with its accumulated log), `envCompleteOk`
satisfies the two `app_complete.py` side conditions, and the conclusions hold
at those inputs. -/
theorem c4_error_handling_witness :
    App.tryBody envAppSendKeysRaises "https://example.com"
        = Except.error ("ElementNotInteractableException",
            ["Creating fresh Chrome driver...",
             "Navigating to https://www.ratemysite.xyz/",
             "Checking for cookie banners...", "Looking for input field...",
             "Found input field using wait condition",
             "Entering URL: https://example.com"])
    ∧ envCompleteOk.makeDriver = Except.ok ()
    ∧ envCompleteOk.quitDriver = Except.ok ()
    ∧ ((∀ (env' : App.Env) (url' : String), ∃ out, App.analyze_one env' url' = Except.ok out)
       ∧ (∃ log, App.analyze_one envAppSendKeysRaises "https://example.com"
            = Except.ok ("", log)
            ∧ ("ERROR in analysis: " ++ "ElementNotInteractableException") ∈ log)
       ∧ (App.stream_analysis soupOfNothing analyzeNothing [] ["example.com"]).1.countP
            Event.isResult = 1
       ∧ (∃ out, AppComplete.analyze_one envCompleteOk "https://example.com"
            = Except.ok out)) :=
  ⟨rfl, rfl, rfl,
   c4_error_handling_amended envAppSendKeysRaises "https://example.com"
     "ElementNotInteractableException"
     ["Creating fresh Chrome driver...",
      "Navigating to https://www.ratemysite.xyz/",
      "Checking for cookie banners...", "Looking for input field...",
      "Found input field using wait condition",
      "Entering URL: https://example.com"]
     envCompleteOk "https://example.com" soupOfNothing analyzeNothing [] ["example.com"]
     rfl rfl rfl⟩

/-- C4 (counterexample): in `app_complete.py` a driver-creation failure is
not caught — `_analyze_one_with_debugging` raises instead of returning a
(result, debug log) pair, so the batch loop that called it aborts. -/
theorem c4_error_handling_counterexample :
    AppComplete.analyze_one envCompleteDriverRaises "https://example.com"
      = Except.error "SessionNotCreatedException" :=
  rfl

/-- `_grab_score` yields the placeholder when no label's pattern matches. -/
theorem grab_score_no_match (text : String) :
    ∀ labels, (∀ l0 ∈ labels,
        AppComplete.reSearch AppComplete.scoreCapture l0.data text.data = none) →
      AppComplete.grab_score text labels = "-" := by
  intro labels
  induction labels with
  | nil => intro _; rfl
  | cons l0 rest ih =>
    intro h
    have h0 := h l0 (List.mem_cons_self l0 rest)
    simp only [AppComplete.grab_score, h0]
    exact ih fun l1 hl1 => h l1 (List.mem_cons_of_mem l0 hl1)

/-- `_grab_score` yields the digit group captured for the first label whose
pattern matches. -/
theorem grab_score_first_match (text : String) :
    ∀ (labels : List String) (lab : String) (ds : List Char),
      labels.find? (fun l0 =>
        (AppComplete.reSearch AppComplete.scoreCapture l0.data text.data).isSome) = some lab →
      AppComplete.reSearch AppComplete.scoreCapture lab.data text.data = some ds →
      AppComplete.grab_score text labels = String.mk ds := by
  intro labels
  induction labels with
  | nil => intro lab ds hfind; simp at hfind
  | cons l0 rest ih =>
    intro lab ds hfind hs
    cases hr : AppComplete.reSearch AppComplete.scoreCapture l0.data text.data with
    | some g0 =>
      simp only [List.find?_cons, hr, Option.isSome_some] at hfind
      cases hfind
      rw [hr] at hs
      cases hs
      simp only [AppComplete.grab_score, hr]
    | none =>
      simp only [List.find?_cons, hr, Option.isSome_none] at hfind
      simp only [AppComplete.grab_score, hr]
      exact ih lab ds hfind hs

/-- `_grab_block` yields the placeholder when no label's pattern matches. -/
theorem grab_block_no_match (text : String) (multiline : Bool) :
    ∀ labels, (∀ l0 ∈ labels,
        AppComplete.reSearch
          (if multiline then AppComplete.findCapture else AppComplete.singleCapture)
          l0.data text.data = none) →
      AppComplete.grab_block text labels multiline = "-" := by
  intro labels
  induction labels with
  | nil => intro _; rfl
  | cons l0 rest ih =>
    intro h
    have h0 := h l0 (List.mem_cons_self l0 rest)
    simp only [AppComplete.grab_block, h0]
    exact ih fun l1 hl1 => h l1 (List.mem_cons_of_mem l0 hl1)

/-- `_grab_block` yields the stripped group captured for the first label
whose pattern matches. -/
theorem grab_block_first_match (text : String) (multiline : Bool) :
    ∀ (labels : List String) (lab : String) (g : List Char),
      labels.find? (fun l0 =>
        (AppComplete.reSearch
          (if multiline then AppComplete.findCapture else AppComplete.singleCapture)
          l0.data text.data).isSome) = some lab →
      AppComplete.reSearch
        (if multiline then AppComplete.findCapture else AppComplete.singleCapture)
        lab.data text.data = some g →
      AppComplete.grab_block text labels multiline = pyStrip (String.mk g) := by
  intro labels
  induction labels with
  | nil => intro lab g hfind; simp at hfind
  | cons l0 rest ih =>
    intro lab g hfind hs
    cases hr : AppComplete.reSearch
        (if multiline then AppComplete.findCapture else AppComplete.singleCapture)
        l0.data text.data with
    | some g0 =>
      simp only [List.find?_cons, hr, Option.isSome_some] at hfind
      cases hfind
      rw [hr] at hs
      cases hs
      simp only [AppComplete.grab_block, hr]
    | none =>
      simp only [List.find?_cons, hr, Option.isSome_none] at hfind
      simp only [AppComplete.grab_block, hr]
      exact ih lab g hfind hs

/-- C8: in the textual Field Parser the label synonyms are tried in listed
order over the visible text; the first label whose regex matches determines
the value (for scores the captured digit group, for blocks the captured,
stripped text), and a field none of whose labels match gets the placeholder
`"-"`.  The last two conjuncts evaluate the parser on concrete text: on
`"Total Score : 77"` the synonym `Overall Score` fails at every position and
the next synonym `Score` wins (matching inside `Total Score`), and text
whose label is followed by no digits yields the placeholder. -/
theorem c8_field_parsing (text url raw : String) :
    (∀ labels, (∀ l0 ∈ labels,
        AppComplete.reSearch AppComplete.scoreCapture l0.data text.data = none) →
      AppComplete.grab_score text labels = "-")
    ∧ (∀ (labels : List String) (lab : String) (ds : List Char),
        labels.find? (fun l0 =>
          (AppComplete.reSearch AppComplete.scoreCapture l0.data text.data).isSome)
            = some lab →
        AppComplete.reSearch AppComplete.scoreCapture lab.data text.data = some ds →
        AppComplete.grab_score text labels = String.mk ds)
    ∧ (∀ (multiline : Bool) (labels : List String), (∀ l0 ∈ labels,
        AppComplete.reSearch
          (if multiline then AppComplete.findCapture else AppComplete.singleCapture)
          l0.data text.data = none) →
      AppComplete.grab_block text labels multiline = "-")
    ∧ (∀ (multiline : Bool) (labels : List String) (lab : String) (g : List Char),
        labels.find? (fun l0 =>
          (AppComplete.reSearch
            (if multiline then AppComplete.findCapture else AppComplete.singleCapture)
            l0.data text.data).isSome) = some lab →
        AppComplete.reSearch
          (if multiline then AppComplete.findCapture else AppComplete.singleCapture)
          lab.data text.data = some g →
        AppComplete.grab_block text labels multiline = pyStrip (String.mk g))
    ∧ (AppComplete.parse_fields url raw).find? (fun p => p.1 = "Overall Score")
        = some ("Overall Score",
            AppComplete.grab_score raw ["Overall Score", "Score", "Total Score"])
    ∧ AppComplete.grab_score "Total Score : 77"
        ["Overall Score", "Score", "Total Score"] = "77"
    ∧ AppComplete.grab_score "no scores here"
        ["Overall Score", "Score", "Total Score"] = "-" :=
  ⟨grab_score_no_match text,
   fun labels lab ds h1 h2 => grab_score_first_match text labels lab ds h1 h2,
   fun multiline => grab_block_no_match text multiline,
   fun multiline labels lab g h1 h2 =>
     grab_block_first_match text multiline labels lab g h1 h2,
   by rfl, by decide, by decide⟩
